import Mathlib

/-!
Verification of the GhostLogic black-box telemetry agent
(`agent/log.py`, `agent/normalize.py`, `agent/collector.py`,
`agent/client.py`, `agent/loop.py`, `agent/__main__.py`).

Python strings are embedded as `List Char` (`Str` below); Python `str`
methods used by the agent (`split`, `strip`, `replace`, `rsplit`,
`lower`, slicing, containment) are reimplemented here as structurally
recursive Lean functions so that every definition evaluates inside the
kernel.  Machine floats that the agent only ever produces from exact
decimal text or from integer arithmetic are modelled as rationals, with
`round(x, 1)` modelled as round-half-to-even on rationals.
-/

/-- Python strings, embedded as their list of characters. -/
abbrev Str := List Char

namespace Py

/-- Python `str.split("\n")`: split on every newline, keeping empty pieces
(so `""` gives `[""]` and a trailing newline yields a trailing `""`). -/
def splitLines : Str → List Str
  | [] => [[]]
  | c :: rest =>
    if c = '\n' then [] :: splitLines rest
    else
      match splitLines rest with
      | [] => [[c]]
      | h :: t => (c :: h) :: t

/-- Python `str.strip()` (whitespace from both ends). -/
def pyStrip (s : Str) : Str :=
  ((s.dropWhile Char.isWhitespace).reverse.dropWhile Char.isWhitespace).reverse

/-- Python `str.strip(ch)` for a single character `ch`: remove every
leading and trailing occurrence of `ch`. -/
def stripChar (ch : Char) (s : Str) : Str :=
  ((s.dropWhile (· = ch)).reverse.dropWhile (· = ch)).reverse

/-- Whitespace-splitting worker for Python `str.split()` /
`str.split(None, maxsplit)`.  `fuel` bounds the recursion; every call
site passes `s.length + 1`, which is enough because each step consumes
at least one character. -/
def splitWsF : Nat → Option Nat → Str → List Str
  | _, _, [] => []
  | 0, _, s => [s]
  | fuel + 1, maxsplit, c :: rest =>
    if Char.isWhitespace c then splitWsF fuel maxsplit rest
    else
      match maxsplit with
      | some 0 => [c :: rest]
      | _ =>
        let tok := (c :: rest).takeWhile (fun d => ¬ Char.isWhitespace d)
        let rest' := (c :: rest).dropWhile (fun d => ¬ Char.isWhitespace d)
        tok :: splitWsF fuel (maxsplit.map (· - 1)) rest'

/-- Python `str.split()` (split on whitespace runs, no empty tokens). -/
def pySplit (s : Str) : List Str := splitWsF (s.length + 1) none s

/-- Python `str.split(None, n)`. -/
def pySplitMax (n : Nat) (s : Str) : List Str := splitWsF (s.length + 1) (some n) s

/-- Python `needle in haystack` (substring containment). -/
def containsSub (haystack needle : Str) : Bool :=
  match haystack with
  | [] => needle.isEmpty
  | c :: rest => needle.isPrefixOf (c :: rest) || containsSub rest needle

/-- Worker for Python `str.replace(old, new)` with non-empty `old`:
replace non-overlapping occurrences left to right.  `fuel` bounds the
recursion; call sites pass `s.length + 1`, which suffices because each
step consumes at least one character. -/
def replaceF (k r : Str) : Nat → Str → Str
  | _, [] => []
  | 0, s => s
  | fuel + 1, c :: rest =>
    if !k.isEmpty && k.isPrefixOf (c :: rest) then
      r ++ replaceF k r fuel ((c :: rest).drop k.length)
    else
      c :: replaceF k r fuel rest

/-- Python `s.replace(k, r)` for non-empty `k` (the agent only replaces
non-empty keys). -/
def pyReplace (s k r : Str) : Str := replaceF k r (s.length + 1) s

/-- Python `str.split(sep)` worker for a non-empty separator string. -/
def splitSeqF (sep : Str) : Nat → Str → List Str
  | _, [] => [[]]
  | 0, s => [s]
  | fuel + 1, c :: rest =>
    if !sep.isEmpty && sep.isPrefixOf (c :: rest) then
      [] :: splitSeqF sep fuel ((c :: rest).drop sep.length)
    else
      match splitSeqF sep fuel rest with
      | [] => [[c]]
      | h :: t => (c :: h) :: t

/-- Python `s.split(sep)` for a non-empty separator. -/
def pySplitSeq (sep s : Str) : List Str := splitSeqF sep (s.length + 1) s

/-- Numeric value of a digit list (most significant first). -/
def digitsToNat (s : Str) : Nat :=
  s.foldl (fun acc c => acc * 10 + (c.toNat - '0'.toNat)) 0

/-- Python `str.isdigit()` restricted to ASCII digits. -/
def isDigits (s : Str) : Bool := !s.isEmpty && s.all Char.isDigit

/-- Python `int(s)` on decimal text: optional surrounding whitespace,
optional sign, then at least one digit; `none` models `ValueError`. -/
def pyIntParse (s : Str) : Option Int :=
  let t := pyStrip s
  match t with
  | '+' :: rest => if isDigits rest then some (digitsToNat rest : Int) else none
  | '-' :: rest => if isDigits rest then some (-(digitsToNat rest : Int)) else none
  | _ => if isDigits t then some (digitsToNat t : Int) else none

/-- Python `float(s)` on plain decimal text (`[+-]?digits[.digits]?` or
`[+-]?.digits`), giving the exact rational value; `none` models
`ValueError`.  (Exponent, `inf` and `nan` forms never occur in the OS
tool output the agent parses.) -/
def pyFloatParse (s : Str) : Option ℚ :=
  let t := pyStrip s
  let signed : ℚ → Str → Option ℚ := fun sign u =>
    let intPart := u.takeWhile Char.isDigit
    let rest := u.dropWhile Char.isDigit
    match rest with
    | [] => if intPart.isEmpty then none else some (sign * (digitsToNat intPart : ℚ))
    | '.' :: frac =>
      if frac.all Char.isDigit && !(intPart.isEmpty && frac.isEmpty) then
        some (sign * ((digitsToNat intPart : ℚ) +
          (digitsToNat frac : ℚ) / ((10 : ℚ) ^ frac.length)))
      else none
    | _ => none
  match t with
  | '+' :: rest => signed 1 rest
  | '-' :: rest => signed (-1) rest
  | _ => signed 1 t

/-- Python `s.rsplit(c, 1)` when `c` occurs in `s`: split at the last
occurrence of `c`; `none` when `c` does not occur. -/
def rsplitOnce (ch : Char) (s : Str) : Option (Str × Str) :=
  if ch ∈ s then
    let r := s.reverse
    some (((r.dropWhile (· ≠ ch)).drop 1).reverse, (r.takeWhile (· ≠ ch)).reverse)
  else none

/-- Round half to even on rationals, the rounding mode of Python's
`round`. -/
def roundHalfEven (q : ℚ) : ℤ :=
  let f := ⌊q⌋
  if q - f < 1 / 2 then f
  else if q - f > 1 / 2 then f + 1
  else if f % 2 = 0 then f else f + 1

/-- Python `round(x, 1)` modelled on rationals. -/
def pyRound1 (q : ℚ) : ℚ := (roundHalfEven (q * 10) : ℚ) / 10

end Py

open Py

/-! ## `agent/log.py` -/

/-- `log.scrub_sensitive`: remove the tenant key from a message before
logging.  Source: `if tenant_key and tenant_key in msg: return
msg.replace(tenant_key, "[REDACTED]"); return msg`. -/
def scrub_sensitive (msg tenant_key : Str) : Str :=
  if !tenant_key.isEmpty && containsSub msg tenant_key then
    pyReplace msg tenant_key "[REDACTED]".data
  else msg

/-! ### Properties of the embedded string primitives -/

theorem containsSub_iff (h n : Str) : containsSub h n = true ↔ n <:+: h := by
  induction h with
  | nil =>
    simp [containsSub, List.isEmpty_iff]
  | cons c rest ih =>
    simp [containsSub, List.isPrefixOf_iff_prefix, ih, List.infix_cons_iff]

theorem prefix_append_cases {α : Type} (a : List α) (b k : List α)
    (h : k <+: a ++ b) : k <+: a ∨ ∃ k2, k = a ++ k2 ∧ k2 <+: b := by
  induction a generalizing k with
  | nil => exact Or.inr ⟨k, (List.nil_append k).symm, h⟩
  | cons x a' ih =>
    rcases List.prefix_cons_iff.mp h with hnil | ⟨t, ht, htp⟩
    · exact Or.inl (hnil ▸ List.nil_prefix)
    · rcases ih t htp with h1 | ⟨k2, hk2, hk2p⟩
      · exact Or.inl (by rw [ht]; exact List.cons_prefix_cons.mpr ⟨rfl, h1⟩)
      · exact Or.inr ⟨k2, by rw [ht, hk2]; rfl, hk2p⟩

theorem infix_append_cases {α : Type} (a : List α) (b k : List α)
    (h : k <:+: a ++ b) :
    k <:+: a ∨ k <:+: b ∨
      ∃ k1 k2, k = k1 ++ k2 ∧ k1 ≠ [] ∧ k2 ≠ [] ∧ k1 <:+ a ∧ k2 <+: b := by
  induction a generalizing k with
  | nil => exact Or.inr (Or.inl h)
  | cons x a' ih =>
    rcases List.infix_cons_iff.mp h with hp | hi
    · rcases prefix_append_cases (x :: a') b k hp with h1 | ⟨k2, hk2, hk2p⟩
      · exact Or.inl h1.isInfix
      · rcases eq_or_ne k2 [] with rfl | hne
        · rw [List.append_nil] at hk2
          exact Or.inl (by rw [hk2])
        · exact Or.inr (Or.inr ⟨x :: a', k2, hk2, List.cons_ne_nil _ _, hne,
            List.suffix_rfl, hk2p⟩)
    · rcases ih k hi with h1 | h1 | ⟨k1, k2, he, hn1, hn2, hsuf, hpre⟩
      · exact Or.inl (List.infix_cons h1)
      · exact Or.inr (Or.inl h1)
      · exact Or.inr (Or.inr ⟨k1, k2, he, hn1, hn2,
          hsuf.trans (List.suffix_cons x a'), hpre⟩)

theorem infix_redacted_append {k X : Str} (hk : k ≠ []) (hlb : '[' ∉ k)
    (hrb : ']' ∉ k) (hm : ¬ k <:+: "REDACTED".data)
    (h : k <:+: "[REDACTED]".data ++ X) : k <:+: X := by
  have hsplit : "[REDACTED]".data ++ X = '[' :: ("REDACTED".data ++ (']' :: X)) := rfl
  rw [hsplit] at h
  rcases List.infix_cons_iff.mp h with hp | hi
  · rcases List.prefix_cons_iff.mp hp with rfl | ⟨t, rfl, _⟩
    · exact absurd rfl hk
    · exact absurd (List.mem_cons_self _ _) hlb
  · rcases infix_append_cases _ _ _ hi with h1 | h1 | ⟨k1, k2, he, hn1, hn2, _, hpre⟩
    · exact absurd h1 hm
    · rcases List.infix_cons_iff.mp h1 with hp1 | hi1
      · rcases List.prefix_cons_iff.mp hp1 with rfl | ⟨t, rfl, _⟩
        · exact absurd rfl hk
        · exact absurd (List.mem_cons_self _ _) hrb
      · exact hi1
    · rcases List.prefix_cons_iff.mp hpre with rfl | ⟨t, rfl, _⟩
      · exact absurd rfl hn2
      · exact absurd (he ▸ List.mem_append_right k1 (List.mem_cons_self _ _)) hrb

theorem prefix_replaceF {k : Str} :
    ∀ (fuel : Nat) (t p : Str), t.length ≤ fuel → p ≠ [] → '[' ∉ p →
      p <+: replaceF k "[REDACTED]".data fuel t → p <+: t := by
  intro fuel
  induction fuel with
  | zero =>
    intro t p hlen hne _ hp
    cases t with
    | nil => simp only [replaceF] at hp; exact absurd (List.prefix_nil.mp hp) hne
    | cons d t' => simp at hlen
  | succ fuel ih =>
    intro t p hlen hne hlb hp
    cases t with
    | nil => simp only [replaceF] at hp; exact absurd (List.prefix_nil.mp hp) hne
    | cons d t' =>
      simp only [replaceF] at hp
      by_cases hcond : (!k.isEmpty && k.isPrefixOf (d :: t')) = true
      · rw [if_pos hcond] at hp
        have : p <+: '[' :: ("REDACTED".data ++ (']' ::
            replaceF k "[REDACTED]".data fuel ((d :: t').drop k.length))) := hp
        rcases List.prefix_cons_iff.mp this with rfl | ⟨t'', rfl, _⟩
        · exact absurd rfl hne
        · exact absurd (List.mem_cons_self _ _) hlb
      · rw [if_neg hcond] at hp
        rcases List.prefix_cons_iff.mp hp with rfl | ⟨p', rfl, hp'⟩
        · exact absurd rfl hne
        · rcases eq_or_ne p' [] with rfl | hpne
          · exact List.cons_prefix_cons.mpr ⟨rfl, List.nil_prefix⟩
          · have hlb' : '[' ∉ p' := fun hmem => hlb (List.mem_cons_of_mem _ hmem)
            have := ih t' p' (Nat.le_of_succ_le_succ (by simpa using hlen)) hpne hlb' hp'
            exact List.cons_prefix_cons.mpr ⟨rfl, this⟩

theorem not_infix_replaceF {k : Str} (hk : k ≠ []) (hlb : '[' ∉ k)
    (hrb : ']' ∉ k) (hm : ¬ k <:+: "REDACTED".data) :
    ∀ (fuel : Nat) (t : Str), t.length ≤ fuel →
      ¬ k <:+: replaceF k "[REDACTED]".data fuel t := by
  intro fuel
  induction fuel with
  | zero =>
    intro t hlen hinf
    cases t with
    | nil => simp only [replaceF] at hinf; exact hk (List.infix_nil.mp hinf)
    | cons d t' => simp at hlen
  | succ fuel ih =>
    intro t hlen hinf
    cases t with
    | nil => simp only [replaceF] at hinf; exact hk (List.infix_nil.mp hinf)
    | cons d t' =>
      simp only [replaceF] at hinf
      by_cases hcond : (!k.isEmpty && k.isPrefixOf (d :: t')) = true
      · rw [if_pos hcond] at hinf
        have hX := infix_redacted_append hk hlb hrb hm hinf
        have hlen' : ((d :: t').drop k.length).length ≤ fuel := by
          have hk1 : 1 ≤ k.length := List.length_pos.mpr hk
          simp only [List.length_drop]
          omega
        exact ih _ hlen' hX
      · rw [if_neg hcond] at hinf
        rcases List.infix_cons_iff.mp hinf with hp | hi
        · rcases List.prefix_cons_iff.mp hp with rfl | ⟨k', rfl, hk'⟩
          · exact hk rfl
          · rcases eq_or_ne k' [] with rfl | hkne
            · apply hcond
              simp only [Bool.and_eq_true, Bool.not_eq_true', List.isEmpty_eq_false]
              exact ⟨by simp, List.isPrefixOf_iff_prefix.mpr
                (List.cons_prefix_cons.mpr ⟨rfl, List.nil_prefix⟩)⟩
            · have hlb' : '[' ∉ k' := fun hmem => hlb (List.mem_cons_of_mem _ hmem)
              have hpre := prefix_replaceF fuel t' k'
                (Nat.le_of_succ_le_succ (by simpa using hlen)) hkne hlb' hk'
              apply hcond
              simp only [Bool.and_eq_true, Bool.not_eq_true', List.isEmpty_eq_false]
              exact ⟨by simp, List.isPrefixOf_iff_prefix.mpr
                (List.cons_prefix_cons.mpr ⟨rfl, hpre⟩)⟩
        · exact ih t' (Nat.le_of_succ_le_succ (by simpa using hlen)) hi

/-- C4 (counterexample).  The claim says the output of
`scrub_sensitive(message, key)` never contains a non-empty `key` as a
substring.  With `key = "EDA"` and `message = "EDA"` the single
occurrence is replaced by `"[REDACTED]"`, which itself contains `"EDA"`
(inside `REDACTED`), so the scrubbed output still contains the key. -/
theorem scrub_sensitive_claim_counterexample :
    "EDA".data ≠ [] ∧
    containsSub "EDA".data "EDA".data = true ∧
    containsSub (scrub_sensitive "EDA".data "EDA".data) "EDA".data = true := by
  refine ⟨by decide, by decide, by decide⟩

/-- C4 (amended).  For every message and every non-empty key that
contains neither `'['` nor `']'` and is not a substring of `REDACTED`,
the output of `scrub_sensitive` does not contain the key as a substring,
whether the key occurred once or repeatedly in the input message. -/
theorem scrub_sensitive_removes_key (msg key : Str) (hne : key ≠ [])
    (hlb : '[' ∉ key) (hrb : ']' ∉ key)
    (hm : containsSub "REDACTED".data key = false) :
    containsSub (scrub_sensitive msg key) key = false := by
  have hmInf : ¬ key <:+: "REDACTED".data := by
    intro hcontra
    rw [← containsSub_iff] at hcontra
    simp [hm] at hcontra
  rw [Bool.eq_false_iff]
  intro hcontains
  rw [containsSub_iff] at hcontains
  unfold scrub_sensitive at hcontains
  by_cases hcond : (!key.isEmpty && containsSub msg key) = true
  · rw [if_pos hcond] at hcontains
    exact not_infix_replaceF hne hlb hrb hmInf (msg.length + 1) msg
      (Nat.le_succ _) hcontains
  · rw [if_neg hcond] at hcontains
    apply hcond
    simp only [Bool.and_eq_true, Bool.not_eq_true', List.isEmpty_eq_false]
    exact ⟨hne, (containsSub_iff _ _).mpr hcontains⟩

/-- C4 (witness): a realistic key, occurring twice, is fully scrubbed. -/
theorem scrub_sensitive_removes_key_witness :
    containsSub
      (scrub_sensitive "auth failed: key=glk_secret9 retry key=glk_secret9".data
        "glk_secret9".data)
      "glk_secret9".data = false :=
  scrub_sensitive_removes_key _ _ (by decide) (by decide) (by decide) (by decide)

/-! ## Data model shared by `agent/collector.py` and `agent/normalize.py` -/

/-- One process entry as built by `collector._get_processes`.  The
Linux/macOS `ps` paths fill `cpu_percent`/`mem_percent`; the Windows
`tasklist` path fills `mem_kb` instead. -/
structure ProcEntry where
  pid : Int
  cpu_percent : Option ℚ := none
  mem_percent : Option ℚ := none
  mem_kb : Option Int := none
  name : Str
deriving DecidableEq, Repr

/-- The single summary entry built by `collector._get_network_summary`. -/
structure NetEntry where
  listening : Nat
  established : Nat
deriving DecidableEq, Repr

/-- One volume entry as built by `collector._get_disk_usage`. -/
structure DiskEntry where
  mount : Str
  total_bytes : Int
  used_bytes : Int
  free_bytes : Int
  percent : ℚ
deriving DecidableEq, Repr

/-- One listening-port entry as built by `collector._get_open_ports`. -/
structure PortEntry where
  proto : Str
  address : Str
  port : Int
  pid : Option Int := none
  state : Str
  process : Option Str := none
deriving DecidableEq, Repr

/-- The memory dict built by `collector._get_memory_usage`. -/
structure MemInfo where
  total_bytes : Int
  used_bytes : Int
  percent : ℚ
deriving DecidableEq, Repr

/-- The raw snapshot dict assembled by `collector.collect_all` and
consumed by `normalize.normalize_telemetry`.  Scalar entries that a
failed probe leaves as `None` are `Option`s; the nested `os` dict's
entries are `Option`s so that `raw.get("os", {}).get(..., default)`
is `Option.getD`.  A missing or empty list key and an empty list are
both the empty list (`raw.get(key, [])`). -/
structure RawSnapshot where
  hostname : Option String := none
  os_system : Option String := none
  os_version : Option String := none
  os_release : Option String := none
  os_machine : Option String := none
  username : Option String := none
  uptime_secs : Option ℚ := none
  cpu_percent : Option ℚ := none
  ram_percent : Option ℚ := none
  memory : Option MemInfo := none
  processes : List ProcEntry := []
  network : List NetEntry := []
  disks : List DiskEntry := []
  open_ports : List PortEntry := []

/-! ## `agent/normalize.py` -/

/-- The `data` payload of the `system` event. -/
structure SystemData where
  hostname : String
  os : String
  os_version : String
  os_release : String
  machine : String
  username : String
  uptime_secs : Option ℚ
  cpu_percent : Option ℚ
  ram_percent : Option ℚ
  memory : Option MemInfo

/-- The type-specific `data` payload of an event. -/
inductive EventData where
  | system (d : SystemData)
  | processes (count : Nat) (top : List ProcEntry)
  | network (summary : List NetEntry)
  | disk_usage (count : Nat) (volumes : List DiskEntry)
  | open_ports (count : Nat) (ports : List PortEntry)

/-- One event of the ingest payload. -/
structure Event where
  event_type : String
  timestamp : String
  data : EventData

/-- The ingest payload built by `normalize.normalize_telemetry`. -/
structure Batch where
  events : List Event
  source_id : String
  agent_id : String
  endpoint_name : String
  batch_id : String
  timestamp : String

/-- `normalize.normalize_telemetry(raw, agent_id, source_id)`.

The two effects of the Python function — `ts = _iso_now()` (the wall
clock) and `str(uuid.uuid4())` (the RNG) — are passed in as the `ts`
and `uuid` arguments; everything else is the source's pure
construction: a `system` event always, then `processes`, `network`,
`disk_usage`, `open_ports` events appended only when the corresponding
list is non-empty (Python truthiness of a list), all stamped with the
single `ts`. -/
def normalize_telemetry (raw : RawSnapshot) (agent_id source_id : String)
    (ts uuid : String) : Batch :=
  let events : List Event :=
    [⟨"system", ts, .system
        ⟨raw.hostname.getD "unknown",
         raw.os_system.getD "unknown",
         raw.os_version.getD "",
         raw.os_release.getD "",
         raw.os_machine.getD "",
         raw.username.getD "unknown",
         raw.uptime_secs, raw.cpu_percent, raw.ram_percent, raw.memory⟩⟩]
    ++ (if raw.processes.isEmpty then []
        else [⟨"processes", ts, .processes raw.processes.length raw.processes⟩])
    ++ (if raw.network.isEmpty then []
        else [⟨"network", ts, .network raw.network⟩])
    ++ (if raw.disks.isEmpty then []
        else [⟨"disk_usage", ts, .disk_usage raw.disks.length raw.disks⟩])
    ++ (if raw.open_ports.isEmpty then []
        else [⟨"open_ports", ts, .open_ports raw.open_ports.length raw.open_ports⟩])
  { events := events
    source_id := source_id
    agent_id := agent_id
    endpoint_name := raw.hostname.getD "unknown"
    batch_id := uuid
    timestamp := ts }

/-- C2.  Empty list fields are omitted: whenever one of the four
list-typed snapshot fields is empty, no event of the corresponding type
appears in the batch; and when all four are empty the batch holds
exactly one event, of type `system`. -/
theorem normalize_event_types (raw : RawSnapshot)
    (agent_id source_id ts uuid : String) :
    ∀ e ∈ (normalize_telemetry raw agent_id source_id ts uuid).events,
      e.event_type = "system" ∨
      (raw.processes ≠ [] ∧ e.event_type = "processes") ∨
      (raw.network ≠ [] ∧ e.event_type = "network") ∨
      (raw.disks ≠ [] ∧ e.event_type = "disk_usage") ∨
      (raw.open_ports ≠ [] ∧ e.event_type = "open_ports") := by
  intro e he
  simp only [normalize_telemetry, List.mem_append, List.mem_singleton,
    List.mem_ite_nil_left, List.isEmpty_iff] at he
  rcases he with ((((rfl | ⟨h1, rfl⟩) | ⟨h2, rfl⟩) | ⟨h3, rfl⟩) | ⟨h4, rfl⟩)
  · exact Or.inl rfl
  · exact Or.inr (Or.inl ⟨h1, rfl⟩)
  · exact Or.inr (Or.inr (Or.inl ⟨h2, rfl⟩))
  · exact Or.inr (Or.inr (Or.inr (Or.inl ⟨h3, rfl⟩)))
  · exact Or.inr (Or.inr (Or.inr (Or.inr ⟨h4, rfl⟩)))

/-- C2.  Empty list fields are omitted: whenever one of the four
list-typed snapshot fields is empty, no event of the corresponding type
appears in the batch; and when all four are empty the batch holds
exactly one event, of type `system`. -/
theorem normalize_omits_empty_lists (raw : RawSnapshot)
    (agent_id source_id ts uuid : String) :
    (raw.processes = [] →
      ∀ e ∈ (normalize_telemetry raw agent_id source_id ts uuid).events,
        e.event_type ≠ "processes") ∧
    (raw.network = [] →
      ∀ e ∈ (normalize_telemetry raw agent_id source_id ts uuid).events,
        e.event_type ≠ "network") ∧
    (raw.disks = [] →
      ∀ e ∈ (normalize_telemetry raw agent_id source_id ts uuid).events,
        e.event_type ≠ "disk_usage") ∧
    (raw.open_ports = [] →
      ∀ e ∈ (normalize_telemetry raw agent_id source_id ts uuid).events,
        e.event_type ≠ "open_ports") ∧
    (raw.processes = [] → raw.network = [] → raw.disks = [] →
      raw.open_ports = [] →
      (normalize_telemetry raw agent_id source_id ts uuid).events.map
        Event.event_type = ["system"]) := by
  refine ⟨?_, ?_, ?_, ?_, ?_⟩
  · intro hp e he
    rcases normalize_event_types raw agent_id source_id ts uuid e he with
      h | ⟨hne, _⟩ | ⟨_, h⟩ | ⟨_, h⟩ | ⟨_, h⟩ <;> simp_all
  · intro hn e he
    rcases normalize_event_types raw agent_id source_id ts uuid e he with
      h | ⟨_, h⟩ | ⟨hne, _⟩ | ⟨_, h⟩ | ⟨_, h⟩ <;> simp_all
  · intro hd e he
    rcases normalize_event_types raw agent_id source_id ts uuid e he with
      h | ⟨_, h⟩ | ⟨_, h⟩ | ⟨hne, _⟩ | ⟨_, h⟩ <;> simp_all
  · intro ho e he
    rcases normalize_event_types raw agent_id source_id ts uuid e he with
      h | ⟨_, h⟩ | ⟨_, h⟩ | ⟨_, h⟩ | ⟨hne, _⟩ <;> simp_all
  · intro hp hn hd ho
    simp [normalize_telemetry, hp, hn, hd, ho]

/-- C2 (witness): on a snapshot whose four list fields are all empty,
the produced batch has exactly the single `system` event. -/
theorem normalize_omits_empty_lists_witness :
    (normalize_telemetry {} "agent-1" "agent-1:host" "2026-10-12T00:00:00+00:00"
      "3f0b8a2e-0000-4000-8000-000000000001").events.map Event.event_type
      = ["system"] :=
  (normalize_omits_empty_lists {} "agent-1" "agent-1:host"
    "2026-10-12T00:00:00+00:00"
    "3f0b8a2e-0000-4000-8000-000000000001").2.2.2.2 rfl rfl rfl rfl

/-- C6.  Two calls of `normalize_telemetry` on the identical raw
snapshot, `agent_id` and `source_id` — with the wall clock and UUID
source supplying fresh values, as the spec asserts they do — produce
different `batch_id` and different `timestamp`, while the events agree
in everything except the embedded timestamp: the per-event
`(event_type, data)` sequences are identical. -/
theorem normalize_fresh_ids_same_events (raw : RawSnapshot)
    (agent_id source_id ts1 ts2 uuid1 uuid2 : String)
    (hts : ts1 ≠ ts2) (huuid : uuid1 ≠ uuid2) :
    (normalize_telemetry raw agent_id source_id ts1 uuid1).batch_id ≠
      (normalize_telemetry raw agent_id source_id ts2 uuid2).batch_id ∧
    (normalize_telemetry raw agent_id source_id ts1 uuid1).timestamp ≠
      (normalize_telemetry raw agent_id source_id ts2 uuid2).timestamp ∧
    (normalize_telemetry raw agent_id source_id ts1 uuid1).events.map
        (fun e => (e.event_type, e.data)) =
      (normalize_telemetry raw agent_id source_id ts2 uuid2).events.map
        (fun e => (e.event_type, e.data)) := by
  refine ⟨huuid, hts, ?_⟩
  simp only [normalize_telemetry, List.map_append, apply_ite
    (List.map (fun e : Event => (e.event_type, e.data))), List.map_cons,
    List.map_nil]

/-- C6 (witness). -/
theorem normalize_fresh_ids_same_events_witness :
    (normalize_telemetry {} "agent-1" "agent-1:host" "T1" "U1").batch_id ≠
      (normalize_telemetry {} "agent-1" "agent-1:host" "T2" "U2").batch_id ∧
    (normalize_telemetry {} "agent-1" "agent-1:host" "T1" "U1").timestamp ≠
      (normalize_telemetry {} "agent-1" "agent-1:host" "T2" "U2").timestamp ∧
    (normalize_telemetry {} "agent-1" "agent-1:host" "T1" "U1").events.map
        (fun e => (e.event_type, e.data)) =
      (normalize_telemetry {} "agent-1" "agent-1:host" "T2" "U2").events.map
        (fun e => (e.event_type, e.data)) :=
  normalize_fresh_ids_same_events {} "agent-1" "agent-1:host" "T1" "T2"
    "U1" "U2" (by decide) (by decide)

/-! ## `agent/collector.py` -/

/-- The value of `platform.system()`, which selects the collector's
per-OS code path. -/
inductive OSKind where
  | linux
  | darwin
  | windows
deriving DecidableEq, Repr

/-- `collector._get_cpu_usage`, Linux counter path, after the
`/proc/stat` fields have been read: takes the cached previous
`(idle, total)` sample (the module-global `_prev_cpu_sample`) and the
freshly read `idle` and `total` tick counts; returns the percentage and
the new cache value.  Source lines 80–91. -/
def _get_cpu_usage (prev : Option (Int × Int)) (idle total : Int) :
    ℚ × Option (Int × Int) :=
  match prev with
  | none => (0, some (idle, total))
  | some (prev_idle, prev_total) =>
    let idle_delta := idle - prev_idle
    let total_delta := total - prev_total
    if total_delta ≤ 0 then (0, some (idle, total))
    else (pyRound1 ((1 - (idle_delta : ℚ) / (total_delta : ℚ)) * 100),
      some (idle, total))

/-- One line of `ps -eo pid,pcpu,pmem,comm` output (used verbatim by
both the Linux and the Darwin branches of `_get_processes`):
`parts = line.split(None, 3)`, needs 4 parts, `int`/`float`/`float`
parses guarded by `try/except ValueError`. -/
def parseProcLinePs (line : Str) : Option ProcEntry :=
  match pySplitMax 3 line with
  | [p0, p1, p2, p3] =>
    match pyIntParse p0, pyFloatParse p1, pyFloatParse p2 with
    | some pid, some cpu, some mem =>
      some { pid := pid, cpu_percent := some cpu, mem_percent := some mem,
             name := p3 }
    | _, _, _ => none
  | _ => none

/-- One line of `tasklist /FO CSV /NH` output (Windows branch of
`_get_processes`). -/
def parseProcLineTasklist (line : Str) : Option ProcEntry :=
  let l := stripChar '"' (pyStrip line)
  let parts := pySplitSeq "\",\"".data l
  if parts.length ≥ 5 then
    let name := stripChar '"' (parts.getD 0 [])
    let pid_str := stripChar '"' (parts.getD 1 [])
    let mem_str := pyReplace (pyReplace (pyReplace (stripChar '"' (parts.getD 4 []))
      ",".data []) " K".data []) " k".data []
    (pyIntParse pid_str).map fun pid =>
      { pid := pid, name := name,
        mem_kb := some (if isDigits mem_str then (digitsToNat mem_str : Int) else 0) }
  else none

/-- `collector._get_processes(top_n)`: per-OS subprocess output parse.
`returncode` and `stdout` are the `subprocess.run` result.  Linux and
Windows truncate `stdout.strip().split("\n")[:top_n]`; Darwin drops the
`ps` header line first (`[1:]`) and then truncates. -/
def _get_processes (os : OSKind) (returncode : Int) (stdout : Str)
    (top_n : Nat) : List ProcEntry :=
  match os with
  | .linux =>
    if returncode ≠ 0 then []
    else ((splitLines (pyStrip stdout)).take top_n).filterMap parseProcLinePs
  | .darwin =>
    if returncode ≠ 0 then []
    else (((splitLines (pyStrip stdout)).drop 1).take top_n).filterMap parseProcLinePs
  | .windows =>
    if returncode ≠ 0 then []
    else ((splitLines (pyStrip stdout)).take top_n).filterMap parseProcLineTasklist

/-- Loop body of the Windows branch of `_get_network_summary`:
`if "LISTENING" in line: listening += 1 elif "ESTABLISHED" in line:
established += 1`. -/
def netTallyWin (acc : Nat × Nat) (line : Str) : Nat × Nat :=
  if containsSub line "LISTENING".data then (acc.1 + 1, acc.2)
  else if containsSub line "ESTABLISHED".data then (acc.1, acc.2 + 1)
  else acc

/-- Loop body of the Linux/Darwin branch of `_get_network_summary`:
`lower = line.lower(); if "listen" in lower: ... elif "estab" in
lower: ...`. -/
def netTallyNix (acc : Nat × Nat) (line : Str) : Nat × Nat :=
  let lower := line.map Char.toLower
  if containsSub lower "listen".data then (acc.1 + 1, acc.2)
  else if containsSub lower "estab".data then (acc.1, acc.2 + 1)
  else acc

/-- `collector._get_network_summary`: tallies listening/established
counts over the raw tool output and returns a single-entry list. -/
def _get_network_summary (os : OSKind) (stdout : Str) : List NetEntry :=
  match os with
  | .linux | .darwin =>
    let counts := (splitLines stdout).foldl netTallyNix (0, 0)
    [⟨counts.1, counts.2⟩]
  | .windows =>
    let counts := (splitLines stdout).foldl netTallyWin (0, 0)
    [⟨counts.1, counts.2⟩]

/-- One line of `netstat -ano -p TCP` output (Windows branch of
`_get_open_ports`): skipped unless the (case-sensitive) substring
`"LISTENING"` occurs; local address is column 1, PID column 4. -/
def parsePortLineWin (line : Str) : Option PortEntry :=
  let l := pyStrip line
  if !containsSub l "LISTENING".data then none
  else
    let parts := pySplit l
    if parts.length ≥ 5 then
      let localAddr := parts.getD 1 []
      let pid_str := parts.getD 4 []
      match rsplitOnce ':' localAddr with
      | some (addr, port_str) =>
        (pyIntParse port_str).map fun port =>
          { proto := "TCP".data, address := addr, port := port,
            pid := if isDigits pid_str then some (digitsToNat pid_str : Int)
              else none,
            state := "LISTENING".data }
      | none => none
    else none

/-- One non-header line of `ss -tlnp` output (Linux branch of
`_get_open_ports`): no state test in the code (the `-l` flag is trusted
to pre-filter); local address is column 3, optional process column 5
truncated to 80 characters. -/
def parsePortLineSs (line : Str) : Option PortEntry :=
  let parts := pySplit line
  if parts.length ≥ 4 then
    let localAddr := parts.getD 3 []
    match rsplitOnce ':' localAddr with
    | some (addr, port_str) =>
      (pyIntParse port_str).map fun port =>
        { proto := "TCP".data, address := addr, port := port,
          state := "LISTEN".data,
          process := if parts.length ≥ 6 then some ((parts.getD 5 []).take 80)
            else none }
    | none => none
  else none

/-- One line of `netstat -an -p tcp` output (Darwin branch of
`_get_open_ports`): skipped unless the (case-sensitive) substring
`"LISTEN"` occurs; local address is column 3, split at its last dot. -/
def parsePortLineNetstatMac (line : Str) : Option PortEntry :=
  if !containsSub line "LISTEN".data then none
  else
    let parts := pySplit line
    if parts.length ≥ 4 then
      let localAddr := parts.getD 3 []
      match rsplitOnce '.' localAddr with
      | some (addr, port_str) =>
        (pyIntParse port_str).map fun port =>
          { proto := "TCP".data, address := addr, port := port,
            state := "LISTEN".data }
      | none => none
    else none

/-- `collector._get_open_ports`: per-OS parse of the listening-socket
tool output.  Note there is no `[:top_n]` truncation on any path. -/
def _get_open_ports (os : OSKind) (returncode : Int) (stdout : Str) :
    List PortEntry :=
  match os with
  | .windows =>
    if returncode ≠ 0 then [] else (splitLines stdout).filterMap parsePortLineWin
  | .linux =>
    if returncode ≠ 0 then []
    else ((splitLines (pyStrip stdout)).drop 1).filterMap parsePortLineSs
  | .darwin =>
    if returncode ≠ 0 then []
    else (splitLines stdout).filterMap parsePortLineNetstatMac

/-- C8.  The counter-based CPU computation: with a cached prior sample
and a strictly larger new total, the result is
`round((1 - idle_delta/total_delta) * 100, 1)` and the cache advances;
with the spec's concrete samples `(idle=1000,total=2000)` then
`(idle=1100,total=2200)` the result is exactly `50.0`; and the very
first call (no prior sample) returns `0.0`, not `None`, caching the
fresh sample. -/
theorem cpu_usage_delta_formula :
    (∀ prev_idle prev_total idle total : Int, prev_total < total →
      _get_cpu_usage (some (prev_idle, prev_total)) idle total =
        (pyRound1 ((1 - ((idle - prev_idle : Int) : ℚ) /
          ((total - prev_total : Int) : ℚ)) * 100), some (idle, total))) ∧
    _get_cpu_usage (some (1000, 2000)) 1100 2200 = (50, some (1100, 2200)) ∧
    (∀ idle total : Int,
      _get_cpu_usage none idle total = (0, some (idle, total))) := by
  refine ⟨?_, ?_, fun idle total => rfl⟩
  · intro prev_idle prev_total idle total h
    have hpos : ¬ (total - prev_total ≤ 0) := by omega
    simp [_get_cpu_usage, hpos]
  · have h50 : ((1 : ℚ) - ((1100 : Int) - 1000 : ℚ) / ((2200 : Int) - 2000 : ℚ)) * 100 = 50 := by
      norm_num
    have : ¬ ((2200 : Int) - 2000 ≤ 0) := by omega
    simp only [_get_cpu_usage, this, if_false]
    norm_num [pyRound1, roundHalfEven]

/-- C8 (witness). -/
theorem cpu_usage_delta_formula_witness :
    _get_cpu_usage (some (1000, 2000)) 1100 2200 =
      (pyRound1 ((1 - ((1100 - 1000 : Int) : ℚ) /
        ((2200 - 2000 : Int) : ℚ)) * 100), some (1100, 2200)) :=
  cpu_usage_delta_formula.1 1000 2000 1100 2200 (by norm_num)

/-- C10.  When a prior sample exists but the new total does not exceed
the prior total, `_get_cpu_usage` returns `0.0` instead of dividing by
zero or going negative, and the cached sample is still replaced by the
new reading. -/
theorem cpu_usage_nonpositive_delta (prev_idle prev_total idle total : Int)
    (h : total - prev_total ≤ 0) :
    _get_cpu_usage (some (prev_idle, prev_total)) idle total =
      (0, some (idle, total)) := by
  simp [_get_cpu_usage, h]

/-- C10 (witness): identical consecutive total counts (delta `0`). -/
theorem cpu_usage_nonpositive_delta_witness :
    _get_cpu_usage (some (1000, 2000)) 1100 2000 = (0, some (1100, 2000)) :=
  cpu_usage_nonpositive_delta 1000 2000 1100 2000 (by norm_num)

set_option maxRecDepth 40000

/-- C3 (counterexample).  The claim asserts that the open-port listing
is capped at 20 entries like the process listing.  `_get_open_ports`
has no truncation: an `ss -tlnp` output with 21 listening lines yields
21 entries. -/
theorem open_ports_not_capped_counterexample :
    20 < (_get_open_ports .linux 0 "State  Recv-Q Send-Q Local:Port Peer:Port Process\nLISTEN 0      128    0.0.0.0:7000 0.0.0.0:*  users\nLISTEN 0      128    0.0.0.0:7001 0.0.0.0:*  users\nLISTEN 0      128    0.0.0.0:7002 0.0.0.0:*  users\nLISTEN 0      128    0.0.0.0:7003 0.0.0.0:*  users\nLISTEN 0      128    0.0.0.0:7004 0.0.0.0:*  users\nLISTEN 0      128    0.0.0.0:7005 0.0.0.0:*  users\nLISTEN 0      128    0.0.0.0:7006 0.0.0.0:*  users\nLISTEN 0      128    0.0.0.0:7007 0.0.0.0:*  users\nLISTEN 0      128    0.0.0.0:7008 0.0.0.0:*  users\nLISTEN 0      128    0.0.0.0:7009 0.0.0.0:*  users\nLISTEN 0      128    0.0.0.0:7010 0.0.0.0:*  users\nLISTEN 0      128    0.0.0.0:7011 0.0.0.0:*  users\nLISTEN 0      128    0.0.0.0:7012 0.0.0.0:*  users\nLISTEN 0      128    0.0.0.0:7013 0.0.0.0:*  users\nLISTEN 0      128    0.0.0.0:7014 0.0.0.0:*  users\nLISTEN 0      128    0.0.0.0:7015 0.0.0.0:*  users\nLISTEN 0      128    0.0.0.0:7016 0.0.0.0:*  users\nLISTEN 0      128    0.0.0.0:7017 0.0.0.0:*  users\nLISTEN 0      128    0.0.0.0:7018 0.0.0.0:*  users\nLISTEN 0      128    0.0.0.0:7019 0.0.0.0:*  users\nLISTEN 0      128    0.0.0.0:7020 0.0.0.0:*  users".data).length := by decide

/-- C3 (amended).  The process listing is indeed truncated to at most
`top_n` entries (20 at the call site) on every OS path — the CPU
ordering being delegated to the tool (`--sort=-pcpu` / `-r`) and the
truncation applied to the tool's output order — but the open-port
listing is not capped (see the counterexample). -/
theorem get_processes_bounded (os : OSKind) (returncode : Int)
    (stdout : Str) (top_n : Nat) :
    (_get_processes os returncode stdout top_n).length ≤ top_n := by
  have hb : ∀ (l : List Str) (f : Str → Option ProcEntry),
      ((l.take top_n).filterMap f).length ≤ top_n := fun l f =>
    le_trans (List.length_filterMap_le _ _) (List.length_take_le _ _)
  cases os <;> simp only [_get_processes] <;> split
  · simp
  · exact hb _ _
  · simp
  · exact hb _ _
  · simp
  · exact hb _ _


/-- Formalisation of C7's filter criterion, following the spec's words:
an entry should be included exactly when its connection-state column
matches `"listening"` case-insensitively.  In `netstat -ano -p TCP`
output the state is the fourth whitespace-separated column. -/
def specListeningMatch (line : Str) : Bool :=
  ((pySplit (pyStrip line)).getD 3 []).map Char.toLower == "listening".data

/-- A `netstat` line whose state column is lowercase `listening`. -/
def winLowerLine : Str :=
  "  TCP    0.0.0.0:9090     0.0.0.0:0    listening       4242".data

/-- C7 (counterexample).  The code's filter is the case-sensitive
substring test `"LISTENING" in line`, not a case-insensitive state
match: a line whose state column is lowercase `listening` matches the
claim's criterion but is dropped from the open-ports listing. -/
theorem open_ports_ci_counterexample :
    specListeningMatch winLowerLine = true ∧
    _get_open_ports .windows 0 winLowerLine = [] :=
  ⟨by decide, by decide⟩

theorem netTallyWin_foldl (lines : List Str) : ∀ a b : Nat,
    lines.foldl netTallyWin (a, b) =
      (a + (lines.filter (fun l => containsSub l "LISTENING".data)).length,
       b + (lines.filter (fun l => !containsSub l "LISTENING".data &&
         containsSub l "ESTABLISHED".data)).length) := by
  induction lines with
  | nil => intro a b; simp
  | cons l ls ih =>
    intro a b
    simp only [List.foldl_cons, List.filter_cons]
    by_cases h1 : containsSub l "LISTENING".data = true
    · have hstep : netTallyWin (a, b) l = (a + 1, b) := by
        simp [netTallyWin, h1]
      rw [hstep, ih, Prod.ext_iff]
      constructor <;> simp [h1] <;> try omega
    · rw [Bool.not_eq_true] at h1
      by_cases h2 : containsSub l "ESTABLISHED".data = true
      · have hstep : netTallyWin (a, b) l = (a, b + 1) := by
          simp [netTallyWin, h1, h2]
        rw [hstep, ih, Prod.ext_iff]
        constructor <;> simp [h1, h2] <;> try omega
      · rw [Bool.not_eq_true] at h2
        have hstep : netTallyWin (a, b) l = (a, b) := by
          simp [netTallyWin, h1, h2]
        rw [hstep, ih, Prod.ext_iff]
        constructor <;> simp [h1, h2]

/-- C7 (amended).  The Windows open-ports filter is the case-sensitive
substring test `"LISTENING" in line` (the Darwin path likewise tests
`"LISTEN"`, and the Linux path applies no state test in code, trusting
`ss -l`): every produced entry comes from a line containing the exact
substring `"LISTENING"` and carries state `"LISTENING"`; lines without
it (for example `ESTABLISHED` connections) yield no port entry but are
tallied into the network summary's `established` counter. -/
theorem open_ports_filter_case_sensitive (line : Str) (p : PortEntry)
    (out : Str) (h : parsePortLineWin line = some p) :
    containsSub (pyStrip line) "LISTENING".data = true ∧
    p.state = "LISTENING".data ∧
    _get_network_summary .windows out =
      [⟨((splitLines out).filter
          (fun l => containsSub l "LISTENING".data)).length,
        ((splitLines out).filter
          (fun l => !containsSub l "LISTENING".data &&
            containsSub l "ESTABLISHED".data)).length⟩] := by
  have hc : containsSub (pyStrip line) "LISTENING".data = true := by
    by_contra hcn
    rw [Bool.not_eq_true] at hcn
    simp [parsePortLineWin, hcn] at h
  refine ⟨hc, ?_, ?_⟩
  · simp only [parsePortLineWin, hc, Bool.not_true, Bool.false_eq_true,
      if_false] at h
    split at h
    · split at h
      · rcases Option.map_eq_some'.mp h with ⟨port, _, rfl⟩
        rfl
      · exact absurd h (by simp)
    · exact absurd h (by simp)
  · simp only [_get_network_summary, netTallyWin_foldl]
    simp

/-- C7 (witness): an uppercase `LISTENING` line is parsed into an entry
with state `LISTENING`, and on the repo's own `netstat` test sample the
three `ESTABLISHED` lines land in the `established` counter. -/
theorem open_ports_filter_case_sensitive_witness :
    containsSub (pyStrip "  TCP    0.0.0.0:8080     0.0.0.0:0    LISTENING       1234".data)
      "LISTENING".data = true ∧
    (⟨"TCP".data, "0.0.0.0".data, 8080, some 1234, "LISTENING".data, none⟩ :
      PortEntry).state = "LISTENING".data ∧
    _get_network_summary .windows
        "  TCP    0.0.0.0:80    0.0.0.0:0   LISTENING\n  TCP    10.0.0.1:5234   1.2.3.4:443  ESTABLISHED\n  TCP    10.0.0.1:5235   1.2.3.4:443  ESTABLISHED\n  TCP    10.0.0.1:5236   1.2.3.4:443  ESTABLISHED".data =
      [⟨((splitLines "  TCP    0.0.0.0:80    0.0.0.0:0   LISTENING\n  TCP    10.0.0.1:5234   1.2.3.4:443  ESTABLISHED\n  TCP    10.0.0.1:5235   1.2.3.4:443  ESTABLISHED\n  TCP    10.0.0.1:5236   1.2.3.4:443  ESTABLISHED".data).filter
          (fun l => containsSub l "LISTENING".data)).length,
        ((splitLines "  TCP    0.0.0.0:80    0.0.0.0:0   LISTENING\n  TCP    10.0.0.1:5234   1.2.3.4:443  ESTABLISHED\n  TCP    10.0.0.1:5235   1.2.3.4:443  ESTABLISHED\n  TCP    10.0.0.1:5236   1.2.3.4:443  ESTABLISHED".data).filter
          (fun l => !containsSub l "LISTENING".data &&
            containsSub l "ESTABLISHED".data)).length⟩] :=
  open_ports_filter_case_sensitive
    "  TCP    0.0.0.0:8080     0.0.0.0:0    LISTENING       1234".data
    ⟨"TCP".data, "0.0.0.0".data, 8080, some 1234, "LISTENING".data, none⟩
    "  TCP    0.0.0.0:80    0.0.0.0:0   LISTENING\n  TCP    10.0.0.1:5234   1.2.3.4:443  ESTABLISHED\n  TCP    10.0.0.1:5235   1.2.3.4:443  ESTABLISHED\n  TCP    10.0.0.1:5236   1.2.3.4:443  ESTABLISHED".data
    (by decide)

/-! ## `agent/client.py` -/

/-- JSON values, as returned by `json.loads` and built by `_post`'s
error dictionaries. -/
inductive Json where
  | null
  | bool (b : Bool)
  | num (n : Int)
  | str (s : String)
  | arr (elems : List Json)
  | obj (fields : List (String × Json))

/-- Python `s[:n]` on strings. -/
def strTake (n : Nat) (s : String) : String := ⟨s.data.take n⟩

/-- The four ways `urllib.request.urlopen` + `resp.read().decode()` can
come back to `_post`: a decoded success body, an `HTTPError` (whose own
body read may fail, hence `Option`), a `URLError` with its `reason`,
or any other exception caught by the final `except Exception`. -/
inductive UrlOpenOutcome where
  | success (body : String)
  | httpError (code : Int) (body : Option String)
  | urlError (reason : String)
  | otherError (msg : String)

/-- `client._post` below the I/O boundary: the total map from the
request outcome to the returned dict.  `parseJson` stands for
`json.loads` (`none` models `json.JSONDecodeError`).  This function is
total — `_post` never raises — and each failure class surfaces as a
`{"status": "error", ...}` value, translated line by line from the
`try/except` ladder at `client.py` lines 45–65. -/
def post_result (parseJson : String → Option Json) : UrlOpenOutcome → Json
  | .success body =>
    match parseJson body with
    | some j => j
    | none => .obj [("status", .str "error"),
        ("detail", .str ("non-JSON response: " ++ strTake 200 body))]
  | .httpError code body =>
    let b := body.getD "(unreadable)"
    .obj [("status", .str "error"), ("http_code", .num code),
      ("detail", .str (strTake 500 b))]
  | .urlError reason => .obj [("status", .str "error"), ("detail", .str reason)]
  | .otherError msg => .obj [("status", .str "error"), ("detail", .str msg)]

/-- The spec's typed "parse error" result: carries a truncated raw body
for diagnostics. -/
def specParseError (rawBody : String) : Json :=
  .obj [("status", .str "error"),
    ("detail", .str ("non-JSON response: " ++ strTake 200 rawBody))]

/-- The spec's typed "http error" result: carries the status code and a
truncated response body. -/
def specHttpError (code : Int) (body : String) : Json :=
  .obj [("status", .str "error"), ("http_code", .num code),
    ("detail", .str (strTake 500 body))]

/-- The spec's typed "network error" result: carries the underlying
reason. -/
def specNetError (reason : String) : Json :=
  .obj [("status", .str "error"), ("detail", .str reason)]

/-- C5.  `_post` (and hence `post_ingest` / `post_seal`, which only
prepend the URL path) never raises past its boundary: it is a total
function of the request outcome, returning the parsed body on a 2xx
JSON response, the typed parse-error result on a non-JSON success body,
the typed http-error result on an HTTP error status (with `(unreadable)`
standing in when the error body itself cannot be read), and the typed
network-error result on a connection-level failure or any other
exception. -/
theorem post_result_classification (parseJson : String → Option Json)
    (o : UrlOpenOutcome) :
    post_result parseJson o =
      match o with
      | .success body => (parseJson body).getD (specParseError body)
      | .httpError code body => specHttpError code (body.getD "(unreadable)")
      | .urlError reason => specNetError reason
      | .otherError msg => specNetError msg := by
  cases o with
  | success body =>
    simp only [post_result]
    cases parseJson body <;> rfl
  | httpError code body => rfl
  | urlError reason => rfl
  | otherError msg => rfl

/-! ## `agent/loop.py` -/

/-- Lookup in a JSON object's field list (Python `dict.get`). -/
def jget : List (String × Json) → String → Option Json
  | [], _ => none
  | (k, v) :: rest, key => if k = key then some v else jget rest key

/-- Whether `loop._seal` raises on a given transport result:
`resp.get("status", "unknown")` is an attribute error — and propagates
to `run`'s `except` — exactly when `resp` is not a JSON object
(`json.loads` can also return lists, strings, numbers …).  On any
object `_seal` only logs, whatever the status, and returns normally. -/
def seal_raises (resp : Json) : Bool :=
  match resp with
  | .obj _ => false
  | _ => true

/-- The `status` field `loop._seal` reads from the seal response. -/
def seal_status (resp : Json) : Option Json :=
  match resp with
  | .obj fields => jget fields "status"
  | _ => none

/-- One execution of the seal check in `loop.run` (lines 49–56): if the
monotonic delta since `last_seal` has reached `seal_interval`, `_seal`
is attempted, and `last_seal = now` runs unless `_seal` raised.
Returns the new `last_seal` value. -/
def seal_check_step (last_seal now seal_interval : ℚ) (resp : Json) : ℚ :=
  if seal_interval ≤ now - last_seal then
    if seal_raises resp then last_seal else now
  else last_seal

/-- C1 (counterexample).  The claim says `last_seal` keeps its previous
value when the transport returns a result whose status is `"error"`.
With `last_seal = 0`, `now = 60`, `seal_interval = 60` and the
transport returning `{"status": "error", "detail": "server down"}`,
the seal is due, the status is `"error"`, and yet the marker advances
to `60` — `_seal` only logs a warning on an error status and returns
normally, so `last_seal = now` still executes. -/
theorem seal_marker_claim_counterexample :
    seal_status (Json.obj [("status", Json.str "error"),
      ("detail", Json.str "server down")]) = some (Json.str "error") ∧
    (60 : ℚ) - 0 ≥ 60 ∧
    seal_check_step 0 60 60 (Json.obj [("status", Json.str "error"),
      ("detail", Json.str "server down")]) = 60 ∧
    (60 : ℚ) ≠ 0 := by
  refine ⟨rfl, by norm_num, ?_, by norm_num⟩
  norm_num [seal_check_step, seal_raises]

/-- C1 (amended).  In the scheduler loop the last-seal marker advances
whenever the seal is due and `_seal` returns without raising — which
includes every dict-shaped transport result, error status or not; it
keeps its previous value only when the seal is not yet due or `_seal`
raises (e.g. the response is not a JSON object, so `resp.get`
raises). -/
theorem seal_marker_advance_characterisation
    (last_seal now seal_interval : ℚ) (resp : Json) :
    seal_check_step last_seal now seal_interval resp =
      if seal_interval ≤ now - last_seal ∧ seal_raises resp = false then now
      else last_seal := by
  by_cases hd : seal_interval ≤ now - last_seal <;>
    by_cases hr : seal_raises resp = true <;>
      simp_all [seal_check_step]

/-! ## `agent/__main__.py` -/

/-- The environment `_stop_agent` interacts with: the PID file's
contents if it exists, the verdict of `_is_our_agent` for each PID, and
whether the termination signal/`taskkill` succeeds (`false` models
`ProcessLookupError` / `CalledProcessError`). -/
structure StopEnv where
  pid_file : Option String
  our_agent : Int → Bool
  kill_ok : Bool

/-- What `_stop_agent` did: the messages printed, whether the PID file
was removed, and which PIDs received a termination request. -/
structure StopResult where
  printed : List String
  removed_pid_file : Bool
  signaled : List Int
deriving DecidableEq, Repr

/-- `__main__._stop_agent` (lines 124–158), translated branch by
branch: missing file → "nothing to stop"; unparseable integer →
corruption message and delete; `_is_our_agent` failure → stale message
and delete, signalling nothing; otherwise signal (success or
already-stopped message) and delete regardless. -/
def _stop_agent (env : StopEnv) : StopResult :=
  match env.pid_file with
  | none => ⟨["No running agent found (no PID file)."], false, []⟩
  | some raw =>
    match pyIntParse (pyStrip raw.data) with
    | none => ⟨["Corrupt PID file. Removing."], true, []⟩
    | some pid =>
      if env.our_agent pid = false then
        ⟨["PID " ++ toString pid ++
          " is not a GhostLogic agent (stale PID file). Cleaning up."],
          true, []⟩
      else
        ⟨[if env.kill_ok then "Agent (PID " ++ toString pid ++ ") stopped."
          else "Agent (PID " ++ toString pid ++ ") was already stopped."],
          true, [pid]⟩

/-- C9.  When the PID file holds an integer PID whose identity
verification fails, `stop` prints the stale-PID message, deletes the
PID file, and issues no termination signal to any process. -/
theorem stop_stale_pid_no_signal (env : StopEnv) (raw : String) (pid : Int)
    (h1 : env.pid_file = some raw)
    (h2 : pyIntParse (pyStrip raw.data) = some pid)
    (h3 : env.our_agent pid = false) :
    _stop_agent env =
      ⟨["PID " ++ toString pid ++
        " is not a GhostLogic agent (stale PID file). Cleaning up."],
        true, []⟩ := by
  simp [_stop_agent, h1, h2, h3]

/-- C9 (witness): PID file contents `"4242"`, verification failing. -/
theorem stop_stale_pid_no_signal_witness :
    _stop_agent ⟨some "4242", fun _ => false, true⟩ =
      ⟨["PID " ++ toString (4242 : Int) ++
        " is not a GhostLogic agent (stale PID file). Cleaning up."],
        true, []⟩ :=
  stop_stale_pid_no_signal ⟨some "4242", fun _ => false, true⟩ "4242" 4242
    rfl (by decide) rfl
